import Mathlib

/-!
Shallow embedding of `lightning/systems/semi/Baseline.py` (class
`BaselineSystem`): the orchestration layer that wires an embedding module,
a text encoder, an optional codebook-matching module, a FastSpeech2
acoustic model and a loss function, and defines the per-batch training,
validation and inference computations.

The neural submodules (`MultilingualEmbedding`, `TextEncoder`,
`SoftMultiAttCodebook`, `FastSpeech2`, `FastSpeech2Loss`) and the table
`LANG_NAME2ID` are code of this repository that is not present under the
excerpt; they are modelled from the specification (each such definition
carries a doc comment starting `Modelled from the spec:`).  The
orchestration functions themselves are translated line by line from the
source.
-/

namespace Baseline

/-- A tensor, modelled as its flat numeric contents (rationals stand in for
floats; shapes are not tracked because the orchestration layer never
inspects them). -/
structure Tensor where
  data : List ℚ
deriving DecidableEq, Repr

/-- The empty tensor, used as the out-of-range default for list indexing. -/
def Tensor.default : Tensor := ⟨[]⟩

/-- A batch is the positional tuple of tensors delivered by the data
pipeline (`batch` in the Python code). -/
abbrev Batch := List Tensor

/-- `batch[i]` — positional indexing into a batch. -/
def bget (batch : Batch) (i : Nat) : Tensor := batch.getD i Tensor.default

/-- Parameter store: `nn.Parameter` objects live in a heap so that aliasing
(two modules holding the very same parameter object) is observable. -/
abbrev Store := List Tensor

/-- A reference to a parameter in the store (a Python object identity). -/
abbrev ParamRef := Nat

/-- Read a parameter through a reference. -/
def storeRead (st : Store) (r : ParamRef) : Tensor := st.getD r Tensor.default

/-- Overwrite the parameter a reference points to (an external optimizer
update). -/
def storeWrite (st : Store) (r : ParamRef) (t : Tensor) : Store := st.set r t

/-- Modelled from the spec: `torch.randn(n)` — random initialization under
a fixed seed; the concrete values are irrelevant to the orchestration
layer, so a fixed deterministic fill is used. -/
def randn (n : Nat) : Tensor := ⟨List.replicate n 0⟩

/-- The `matching` block of the model configuration
(`matching.codebook_size`, `matching.dim`, `matching.nhead`). -/
structure MatchingConfig where
  codebook_size : Nat
  dim : Nat
  nhead : Nat
deriving DecidableEq, Repr

/-- The slice of the model configuration the orchestration layer reads:
`speaker_emb`, `use_matching`, `transformer.encoder_hidden`,
`text_encoder`, `matching.*`. -/
structure ModelConfig where
  speaker_emb : String
  use_matching : Bool
  encoder_hidden : Nat
  text_encoder_cfg : Nat
  matching : MatchingConfig
deriving DecidableEq, Repr

/-- Modelled from the spec: `MultilingualEmbedding` — maps symbol/phoneme
IDs (per-language symbol tables) to dense vectors of dimension `dim`;
`id2symbols` is the per-symbol-set vocabulary built from the data
configs. -/
structure MultilingualEmbedding where
  id2symbols : List (String × Nat)
  dim : Nat
deriving DecidableEq, Repr

/-- Modelled from the spec: the embedding forward pass — each ID becomes a
dense vector (a deterministic fill of width `dim`, shifted by the optional
symbol-set identifier). -/
def MultilingualEmbedding.fwd (m : MultilingualEmbedding) (ids : Tensor)
    (symbol_id : Option String) : Tensor :=
  let off : ℚ := match symbol_id with
    | some s => (s.length : ℚ)
    | none => 0
  ⟨(ids.data.map (fun i => List.replicate m.dim (i + off))).flatten⟩

/-- Modelled from the spec: `TextEncoder` — transforms symbol embeddings
into contextualized hidden representations, given sequence lengths. -/
structure TextEncoder where
  cfg : Nat
deriving DecidableEq, Repr

/-- Modelled from the spec: the text-encoder forward pass — a
deterministic contextualization of the embedded sequence using the
lengths. -/
def TextEncoder.fwd (te : TextEncoder) (emb : Tensor) (lengths : Tensor) :
    Tensor :=
  ⟨emb.data.map (fun x => x + lengths.data.sum + (te.cfg : ℚ))⟩

/-- Modelled from the spec: `SoftMultiAttCodebook` — soft-attention lookup
into a shared learned codebook; `emb_banks` is a reference to the
codebook parameter (so that re-assigning it aliases another module's
parameter). -/
structure SoftMultiAttCodebook where
  codebook_size : Nat
  embed_dim : Nat
  num_heads : Nat
  emb_banks : ParamRef
deriving DecidableEq, Repr

/-- Modelled from the spec: the `SoftMultiAttCodebook` constructor — it
allocates its own codebook parameter in the store. -/
def SoftMultiAttCodebook.create (codebook_size embed_dim num_heads : Nat)
    (st : Store) : SoftMultiAttCodebook × Store :=
  (⟨codebook_size, embed_dim, num_heads, st.length⟩,
   st ++ [randn (codebook_size * embed_dim)])

/-- Modelled from the spec: the codebook-matching forward pass — produces
a codebook-mixed representation plus attention weights, reading the bank
through its parameter reference. -/
def SoftMultiAttCodebook.fwd (tm : SoftMultiAttCodebook) (st : Store)
    (emb : Tensor) : Tensor × Tensor :=
  let bank := storeRead st tm.emb_banks
  (⟨emb.data.map (fun x => x + bank.data.sum)⟩, ⟨bank.data.map (fun _ => 1)⟩)

/-- Modelled from the spec: `FastSpeech2` — the acoustic model; holds the
configuration it was constructed with. -/
structure FastSpeech2 where
  cfg : ModelConfig
deriving DecidableEq, Repr

/-- Speaker-conditioning argument: a batched conditioning tensor in
training/validation, or a reference mel slice plus slice list in
inference. -/
inductive SpkArgs where
  | batched (t : Tensor)
  | reference (t : Tensor) (slices : List (Nat × Nat))
deriving DecidableEq, Repr

/-- The fixed-order result tuple of the acoustic model, as documented in
the `inference` docstring: output, postnet_output, p_predictions,
e_predictions, log_d_predictions, d_rounded, src_masks, mel_masks,
src_lens, mel_lens.  `gradTracked` records whether the autograd engine
was recording when the forward pass ran (the ambient gradient mode at the
call site). -/
structure FS2Output where
  output : Tensor
  postnet_output : Tensor
  p_predictions : Tensor
  e_predictions : Tensor
  log_d_predictions : Tensor
  d_rounded : Tensor
  src_masks : Tensor
  mel_masks : Tensor
  src_lens : Tensor
  mel_lens : Tensor
  gradTracked : Bool
deriving DecidableEq, Repr

/-- The ten prediction artifacts of an acoustic-model output, in the fixed
documented order. -/
def FS2Output.toTuple (o : FS2Output) :
    Tensor × Tensor × Tensor × Tensor × Tensor × Tensor × Tensor × Tensor ×
    Tensor × Tensor :=
  (o.output, o.postnet_output, o.p_predictions, o.e_predictions,
   o.log_d_predictions, o.d_rounded, o.src_masks, o.mel_masks,
   o.src_lens, o.mel_lens)

/-- Modelled from the spec: the `FastSpeech2` forward pass — consumes
speaker conditioning, encoder outputs, the positional conditioning tail
(whose first element is the sequence-length tensor), an optional language
tag and the speaker-embedding-averaging flag, and produces the ten
prediction artifacts; the returned `src_lens` is the length tensor it was
given, and the numeric outputs do not depend on the gradient mode.
`grad` is the ambient autograd mode at the call site. -/
def FastSpeech2.fwd (m : FastSpeech2) (grad : Bool) (spk : SpkArgs)
    (emb : Tensor) (args : List Tensor) (lang_args : Option Tensor)
    (average_spk_emb : Bool) : FS2Output :=
  let spkv : ℚ := match spk with
    | .batched t => t.data.sum
    | .reference t _ => t.data.sum
  let langv : ℚ := match lang_args with
    | some t => t.data.sum
    | none => 0
  let avgv : ℚ := if average_spk_emb then 1 else 0
  let base := emb.data.map (fun x => x + spkv + langv + avgv)
  let lens := args.headD Tensor.default
  { output := ⟨base⟩
  , postnet_output := ⟨base.map (fun x => x + 1)⟩
  , p_predictions := ⟨base.map (fun x => x * 2)⟩
  , e_predictions := ⟨base.map (fun x => x * 3)⟩
  , log_d_predictions := ⟨base.map (fun x => x - 1)⟩
  , d_rounded := ⟨base.map (fun x => (⌊x⌋ : ℚ))⟩
  , src_masks := ⟨lens.data.map (fun _ => 0)⟩
  , mel_masks := ⟨base.map (fun _ => 0)⟩
  , src_lens := lens
  , mel_lens := ⟨[(base.length : ℚ)]⟩
  , gradTracked := grad }

/-- Modelled from the spec: `FastSpeech2Loss` — holds the configuration it
was constructed with. -/
structure FastSpeech2Loss where
  cfg : ModelConfig
deriving DecidableEq, Repr

/-- Elementwise absolute-difference accumulation between two flat numeric
lists (the distance underlying each modelled loss term). -/
def absDiffSum : List ℚ → List ℚ → ℚ
  | [], _ => 0
  | _ :: _, [] => 0
  | a :: as, b :: bs => |a - b| + absDiffSum as bs

/-- Distance between a prediction tensor and a target tensor. -/
def tdist (x y : Tensor) : ℚ := absDiffSum x.data y.data

/-- Modelled from the spec: the `FastSpeech2Loss` forward pass — compares
predictions against targets, producing the tuple
(total, mel, postnet, pitch, energy, duration); each term is a
non-negative distance between a predicted tensor and the matching target
tensor from the truncated batch, and the total is their aggregate. -/
def FastSpeech2Loss.fwd (lf : FastSpeech2Loss) (targets : List Tensor)
    (out : FS2Output) : List ℚ :=
  let melL := tdist out.output (targets.getD 6 Tensor.default)
  let postL := tdist out.postnet_output (targets.getD 6 Tensor.default)
  let pitchL := tdist out.p_predictions (targets.getD 9 Tensor.default)
  let energyL := tdist out.e_predictions (targets.getD 10 Tensor.default)
  let durL := tdist out.log_d_predictions (targets.getD 11 Tensor.default)
  [melL + postL + pitchL + energyL + durL, melL, postL, pitchL, energyL, durL]

/-- Modelled from the spec: `LANG_NAME2ID` — the language-name-to-ID table
from `text.define`; a finite association table, looked up by name. -/
abbrev LangTable := List (String × Nat)

/-- Dictionary lookup `table[name]`: `some id` on a hit, `none` when the
name is absent (a Python `KeyError`). -/
def langLookup (tbl : LangTable) (name : String) : Option Nat :=
  List.lookup name tbl

/-- The attributes `build_model` installs on a `BaselineSystem`
(`use_matching`, `embedding_model`, `text_encoder`, `model`, `loss_func`,
and — only when matching is enabled — `shared_emb_banks` and
`text_matching`).  Absent attributes are `none`. -/
structure System where
  use_matching : Bool
  embedding_model : MultilingualEmbedding
  text_encoder : TextEncoder
  model : FastSpeech2
  loss_func : FastSpeech2Loss
  shared_emb_banks : Option ParamRef
  text_matching : Option SoftMultiAttCodebook
deriving DecidableEq, Repr

/-- Modelled from the spec: `build_id2symbols(data_configs)` — the
per-symbol-set vocabulary sizes derived from the data configs (names of
the symbol sets paired with a deterministic size). -/
def build_id2symbols (data_configs : List String) : List (String × Nat) :=
  data_configs.map (fun s => (s, s.length))

/-- `BaselineSystem.build_model` (Baseline.py lines 27-44): instantiates
embedding, encoder, acoustic model and loss function; when `use_matching`
is set, additionally allocates the shared embedding bank parameter,
constructs the codebook-matching module, and re-points the module's
`emb_banks` at the shared parameter (aliasing, not copying). -/
def build_model (mc : ModelConfig) (data_configs : List String)
    (st : Store) : System × Store :=
  let use_matching := mc.use_matching
  let encoder_dim := mc.encoder_hidden
  let embedding_model : MultilingualEmbedding :=
    ⟨build_id2symbols data_configs, encoder_dim⟩
  let text_encoder : TextEncoder := ⟨mc.text_encoder_cfg⟩
  let model : FastSpeech2 := ⟨mc⟩
  let loss_func : FastSpeech2Loss := ⟨mc⟩
  if use_matching then
    let sharedRef : ParamRef := st.length
    let st1 := st ++ [randn (mc.matching.codebook_size * mc.matching.dim)]
    let (tm0, st2) := SoftMultiAttCodebook.create
      mc.matching.codebook_size mc.matching.dim mc.matching.nhead st1
    let tm := { tm0 with emb_banks := sharedRef }
    (⟨use_matching, embedding_model, text_encoder, model, loss_func,
      some sharedRef, some tm⟩, st2)
  else
    (⟨use_matching, embedding_model, text_encoder, model, loss_func,
      none, none⟩, st)

/-- Tag for a submodule placed in the optimized-module list (the elements
of the `nn.ModuleList`). -/
inductive Module where
  | embeddingM (m : MultilingualEmbedding)
  | textEncoderM (m : TextEncoder)
  | acousticM (m : FastSpeech2)
  | matchingM (m : SoftMultiAttCodebook)
  | lossM (m : FastSpeech2Loss)
deriving DecidableEq, Repr

/-- Whether a module-list entry is the loss function. -/
def Module.isLoss : Module → Bool
  | .lossM _ => true
  | _ => false

/-- `BaselineSystem.build_optimized_model` (Baseline.py lines 46-50):
`[text_encoder, model, embedding_model]`, extended with `text_matching`
when `use_matching` is set. -/
def build_optimized_model (s : System) : List Module :=
  let opt_modules := [Module.textEncoderM s.text_encoder,
                      Module.acousticM s.model,
                      Module.embeddingM s.embedding_model]
  if s.use_matching then
    opt_modules ++ (match s.text_matching with
      | some tm => [Module.matchingM tm]
      | none => [])
  else
    opt_modules

/-- A named loss dictionary (insertion-ordered, as a Python dict). -/
abbrev LossDict := List (String × ℚ)

/-- The text-side pipeline shared verbatim by `common_step`, `synth_step`
and `inference`: embedding, text encoding with lengths, then — when
matching is enabled — the codebook-matching lookup. -/
def encodePipeline (s : System) (st : Store) (ids : Tensor)
    (symbol_id : Option String) (lengths : Tensor) : Tensor :=
  let emb_texts := s.embedding_model.fwd ids symbol_id
  let emb_texts := s.text_encoder.fwd emb_texts lengths
  if s.use_matching then
    match s.text_matching with
    | some tm => (tm.fwd st emb_texts).1
    | none => emb_texts
  else
    emb_texts

/-- `BaselineSystem.common_step` (Baseline.py lines 56-71): embedding of
`batch[3]`, text encoding with lengths `batch[4]`, optional codebook
matching, the acoustic model on `batch[2]`, the encoded texts and
`batch[4:]`, then the loss on `batch[:-1]` and the output, packed into
the fixed named loss dictionary.  The `train` flag is received but not
consulted. -/
def common_step (s : System) (st : Store) (batch : Batch)
    (batch_idx : Nat) (train : Bool) : LossDict × FS2Output :=
  let emb_texts := encodePipeline s st (bget batch 3) none (bget batch 4)
  let output := s.model.fwd true (SpkArgs.batched (bget batch 2)) emb_texts
    (batch.drop 4) none false
  let loss := s.loss_func.fwd batch.dropLast output
  let loss_dict : LossDict :=
    [("Total Loss", loss.getD 0 0),
     ("Mel Loss", loss.getD 1 0),
     ("Mel-Postnet Loss", loss.getD 2 0),
     ("Pitch Loss", loss.getD 3 0),
     ("Energy Loss", loss.getD 4 0),
     ("Duration Loss", loss.getD 5 0)]
  (loss_dict, output)

/-- `BaselineSystem.synth_step` (Baseline.py lines 73-79): same text-side
pipeline, then the acoustic model on `batch[2]`, the encoded texts and
`batch[4:6]`, with `lang_args = batch[-1]` and speaker-embedding
averaging. -/
def synth_step (s : System) (st : Store) (batch : Batch)
    (batch_idx : Nat) : FS2Output :=
  let emb_texts := encodePipeline s st (bget batch 3) none (bget batch 4)
  s.model.fwd true (SpkArgs.batched (bget batch 2)) emb_texts
    ((batch.drop 4).take 2) (some (batch.getLastD Tensor.default)) true

/-- `BaselineSystem.on_train_batch_start` (Baseline.py lines 81-82):
asserts the batch has exactly 13 elements; the batch itself is passed on
untouched. -/
def on_train_batch_start (batch : Batch) (batch_idx dataloader_idx : Nat) :
    Except String Batch :=
  if batch.length = 13 then .ok batch
  else .error ("AssertionError: data with 13 elements, but get " ++
    toString batch.length)

/-- `BaselineSystem.on_validation_batch_start` (Baseline.py lines 84-85):
identical assertion. -/
def on_validation_batch_start (batch : Batch)
    (batch_idx dataloader_idx : Nat) : Except String Batch :=
  if batch.length = 13 then .ok batch
  else .error ("AssertionError: data with 13 elements, but get " ++
    toString batch.length)

/-- The structured result a step returns to the external training-loop
driver (`loss`, `losses`, `output`, `_batch`, and for validation also
`synth`). -/
structure StepResult where
  loss : ℚ
  losses : LossDict
  output : FS2Output
  batch : Batch
  synth : Option FS2Output
deriving DecidableEq, Repr

/-- `BaselineSystem.training_step` (Baseline.py lines 87-93): runs
`common_step` with `train=True`, logs the `Train/`-tagged scalars
externally, and returns the structured result. -/
def training_step (s : System) (st : Store) (batch : Batch)
    (batch_idx : Nat) : StepResult :=
  let (train_loss_dict, output) := common_step s st batch batch_idx true
  { loss := (List.lookup "Total Loss" train_loss_dict).getD 0
  , losses := train_loss_dict
  , output := output
  , batch := batch
  , synth := none }

/-- `BaselineSystem.validation_step` (Baseline.py lines 95-102): runs
`common_step` with `train=False` and `synth_step`, logs the
`Val/`-tagged scalars externally, and returns the structured result. -/
def validation_step (s : System) (st : Store) (batch : Batch)
    (batch_idx : Nat) : StepResult :=
  let (val_loss_dict, predictions) := common_step s st batch batch_idx false
  let synth_predictions := synth_step s st batch batch_idx
  { loss := (List.lookup "Total Loss" val_loss_dict).getD 0
  , losses := val_loss_dict
  , output := predictions
  , batch := batch
  , synth := some synth_predictions }

/-- Modelled from the spec: the external training-loop driver invokes the
batch-start hook before the step function; an assertion failure in the
hook aborts the step, so no forward computation happens. -/
def run_training_batch (s : System) (st : Store) (batch : Batch)
    (batch_idx : Nat) : Except String StepResult :=
  match on_train_batch_start batch batch_idx 0 with
  | .error e => .error e
  | .ok b => .ok (training_step s st b batch_idx)

/-- Modelled from the spec: the driver for a validation batch, hook first
then step. -/
def run_validation_batch (s : System) (st : Store) (batch : Batch)
    (batch_idx : Nat) : Except String StepResult :=
  match on_validation_batch_start batch batch_idx 0 with
  | .error e => .error e
  | .ok b => .ok (validation_step s st b batch_idx)

/-- `BaselineSystem.inference` (Baseline.py lines 104-136): builds the
speaker reference arguments and — when a language identifier is supplied
— looks it up in `LANG_NAME2ID` (a missing key is a fatal `KeyError`);
builds the token tensor and the length tensor `[len(text)]`; then, with
gradient tracking disabled, runs the shared text-side pipeline and the
acoustic model with speaker-embedding averaging, returning the ten
prediction artifacts. -/
def inference (tbl : LangTable) (s : System) (st : Store)
    (spk_ref_mel_slice : List ℚ) (text : List Nat) (symbol_id : String)
    (lang_id : Option String) : Except String FS2Output :=
  let spk_args := SpkArgs.reference ⟨spk_ref_mel_slice⟩
    [(0, spk_ref_mel_slice.length)]
  let lang_args : Except String (Option Tensor) :=
    match lang_id with
    | some l =>
      match langLookup tbl l with
      | some i => .ok (some ⟨[(i : ℚ)]⟩)
      | none => .error ("KeyError: " ++ l)
    | none => .ok none
  match lang_args with
  | .error e => .error e
  | .ok la =>
    let texts : Tensor := ⟨text.map (fun n => (n : ℚ))⟩
    let src_lens : Tensor := ⟨[(text.length : ℚ)]⟩
    let max_src_len : ℚ := src_lens.data.foldr max 0
    let emb_texts := encodePipeline s st texts (some symbol_id) src_lens
    .ok (s.model.fwd false spk_args emb_texts
      [src_lens, ⟨[max_src_len]⟩] la true)

/-- The forward pass in the order the spec's data-flow section states it:
raw batch → embedding of the token IDs (`batch[3]`) → text encoder with
the sequence lengths (`batch[4]`) → optional codebook matching → acoustic
model on the synthesis-conditioning input (`batch[2]`), the encoded texts
and the remaining conditioning tensors (`batch[4:]`) → predictions. -/
def forward_flow (s : System) (st : Store) (batch : Batch) : FS2Output :=
  s.model.fwd true (SpkArgs.batched (bget batch 2))
    (encodePipeline s st (bget batch 3) none (bget batch 4))
    (batch.drop 4) none false

/-- The loss stage in the order the spec states it: predictions + targets
(the batch without its final element) → loss terms → the named
dictionary. -/
def loss_flow (s : System) (batch : Batch) (out : FS2Output) : LossDict :=
  let loss := s.loss_func.fwd batch.dropLast out
  [("Total Loss", loss.getD 0 0),
   ("Mel Loss", loss.getD 1 0),
   ("Mel-Postnet Loss", loss.getD 2 0),
   ("Pitch Loss", loss.getD 3 0),
   ("Energy Loss", loss.getD 4 0),
   ("Duration Loss", loss.getD 5 0)]

/-- The text-side pipeline with the matching step removed (the path the
spec says is taken when `use_matching` is disabled). -/
def encodeNoMatch (s : System) (ids : Tensor) (symbol_id : Option String)
    (lengths : Tensor) : Tensor :=
  s.text_encoder.fwd (s.embedding_model.fwd ids symbol_id) lengths

/-- The parameter reference the matching module holds as its codebook, if
the module exists. -/
def module_bank_ref (s : System) : Option ParamRef :=
  s.text_matching.map SoftMultiAttCodebook.emb_banks

/-! Concrete fixtures used by the witnesses. -/

/-- A concrete model configuration with matching enabled. -/
def mcT : ModelConfig :=
  { speaker_emb := "table", use_matching := true, encoder_hidden := 2,
    text_encoder_cfg := 1, matching := ⟨2, 2, 1⟩ }

/-- A concrete model configuration with matching disabled. -/
def mcF : ModelConfig :=
  { speaker_emb := "table", use_matching := false, encoder_hidden := 2,
    text_encoder_cfg := 1, matching := ⟨2, 2, 1⟩ }

/-- The system built from `mcT` on an empty store. -/
def sysT : System := (build_model mcT ["en"] []).1

/-- The store after building `sysT`. -/
def storeT : Store := (build_model mcT ["en"] []).2

/-- The system built from `mcF` on an empty store. -/
def sysF : System := (build_model mcF ["en"] []).1

/-- A 12-element batch (malformed). -/
def batch12 : Batch := List.replicate 12 Tensor.default

/-- A 13-element batch (well-formed). -/
def batch13 : Batch :=
  (List.range 13).map (fun i => Tensor.mk [(i : ℚ)])

/-! Helper lemmas. -/

/-- Elementwise absolute-difference accumulation is non-negative. -/
theorem absDiffSum_nonneg (xs : List ℚ) : ∀ ys, 0 ≤ absDiffSum xs ys := by
  induction xs with
  | nil => intro ys; simp [absDiffSum]
  | cons a as ih =>
    intro ys
    cases ys with
    | nil => simp [absDiffSum]
    | cons b bs =>
      have h1 : 0 ≤ |a - b| := abs_nonneg _
      have h2 := ih bs
      calc (0 : ℚ) ≤ |a - b| + absDiffSum as bs := by linarith
        _ = absDiffSum (a :: as) (b :: bs) := rfl

/-- Tensor distance is non-negative. -/
theorem tdist_nonneg (x y : Tensor) : 0 ≤ tdist x y :=
  absDiffSum_nonneg x.data y.data

/-- The leading entry of the modelled loss tuple — the total — is
non-negative. -/
theorem loss_total_nonneg (lf : Baseline.FastSpeech2Loss)
    (targets : List Baseline.Tensor) (out : Baseline.FS2Output) :
    0 ≤ (lf.fwd targets out).getD 0 0 := by
  have h1 := Baseline.tdist_nonneg out.output
    (targets.getD 6 Baseline.Tensor.default)
  have h2 := Baseline.tdist_nonneg out.postnet_output
    (targets.getD 6 Baseline.Tensor.default)
  have h3 := Baseline.tdist_nonneg out.p_predictions
    (targets.getD 9 Baseline.Tensor.default)
  have h4 := Baseline.tdist_nonneg out.e_predictions
    (targets.getD 10 Baseline.Tensor.default)
  have h5 := Baseline.tdist_nonneg out.log_d_predictions
    (targets.getD 11 Baseline.Tensor.default)
  simp only [Baseline.FastSpeech2Loss.fwd, List.getD_cons_zero]
  linarith

/-- Writing a parameter and reading it back through the same reference
yields the written value, provided the reference is live in the store. -/
theorem storeWrite_read_self (st : Store) (r : ParamRef) (t : Tensor)
    (h : r < st.length) : storeRead (storeWrite st r t) r = t := by
  unfold storeRead storeWrite
  induction st generalizing r with
  | nil => simp at h
  | cons a as ih =>
    cases r with
    | zero => simp [List.set, List.getD]
    | succ n =>
      simp only [List.set, List.getD_cons_succ]
      exact ih n (by simpa using h)

end Baseline

/-- C1: a batch whose element count is not exactly 13 makes both
`on_train_batch_start` and `on_validation_batch_start` fail the
assertion, so the driver aborts the step with an assertion error and no
step result (no forward computation) is produced; a 13-element batch
passes both assertions and is handed on unchanged. -/
theorem C1_batch_arity_assertion (s : Baseline.System) (st : Baseline.Store)
    (batch : Baseline.Batch) (i j : Nat) :
    (batch.length ≠ 13 →
      (∃ e, Baseline.on_train_batch_start batch i j = .error e) ∧
      (∃ e, Baseline.on_validation_batch_start batch i j = .error e) ∧
      (∃ e, Baseline.run_training_batch s st batch i = .error e) ∧
      (∃ e, Baseline.run_validation_batch s st batch i = .error e)) ∧
    (batch.length = 13 →
      Baseline.on_train_batch_start batch i j = .ok batch ∧
      Baseline.on_validation_batch_start batch i j = .ok batch) := by
  constructor
  · intro h
    have ht : Baseline.on_train_batch_start batch i j =
        .error ("AssertionError: data with 13 elements, but get " ++
          toString batch.length) := by
      simp [Baseline.on_train_batch_start, h]
    have hv : Baseline.on_validation_batch_start batch i j =
        .error ("AssertionError: data with 13 elements, but get " ++
          toString batch.length) := by
      simp [Baseline.on_validation_batch_start, h]
    have ht0 : Baseline.on_train_batch_start batch i 0 =
        .error ("AssertionError: data with 13 elements, but get " ++
          toString batch.length) := by
      simp [Baseline.on_train_batch_start, h]
    have hv0 : Baseline.on_validation_batch_start batch i 0 =
        .error ("AssertionError: data with 13 elements, but get " ++
          toString batch.length) := by
      simp [Baseline.on_validation_batch_start, h]
    exact ⟨⟨_, ht⟩, ⟨_, hv⟩,
      ⟨"AssertionError: data with 13 elements, but get " ++
        toString batch.length, by simp [Baseline.run_training_batch, ht0]⟩,
      ⟨"AssertionError: data with 13 elements, but get " ++
        toString batch.length, by simp [Baseline.run_validation_batch, hv0]⟩⟩
  · intro h
    constructor <;>
      simp [Baseline.on_train_batch_start, Baseline.on_validation_batch_start, h]

/-- Witness for C1 at concrete batches of arity 12 and 13. -/
theorem C1_batch_arity_assertion_witness :
    (∃ e, Baseline.run_training_batch Baseline.sysT Baseline.storeT
      Baseline.batch12 0 = .error e) ∧
    Baseline.on_train_batch_start Baseline.batch13 0 0 =
      .ok Baseline.batch13 := by
  refine ⟨((C1_batch_arity_assertion Baseline.sysT Baseline.storeT
    Baseline.batch12 0 0).1 (by decide)).2.2.1, ?_⟩
  exact ((C1_batch_arity_assertion Baseline.sysT Baseline.storeT
    Baseline.batch13 0 0).2 (by decide)).1

/-- C2: for every 13-element batch, `common_step` returns a loss
dictionary whose key sequence is exactly the six fixed names, and the
value stored at "Total Loss" is non-negative. -/
theorem C2_loss_dict_keys_and_total_nonneg (s : Baseline.System)
    (st : Baseline.Store) (batch : Baseline.Batch) (i : Nat) (tr : Bool)
    (h : batch.length = 13) :
    ((Baseline.common_step s st batch i tr).1.map Prod.fst =
      ["Total Loss", "Mel Loss", "Mel-Postnet Loss", "Pitch Loss",
       "Energy Loss", "Duration Loss"]) ∧
    ∃ q, List.lookup "Total Loss" (Baseline.common_step s st batch i tr).1 =
        some q ∧ 0 ≤ q := by
  constructor
  · simp [Baseline.common_step]
  · refine ⟨(s.loss_func.fwd batch.dropLast
      (Baseline.common_step s st batch i tr).2).getD 0 0, ?_,
      Baseline.loss_total_nonneg s.loss_func batch.dropLast
        (Baseline.common_step s st batch i tr).2⟩
    simp [Baseline.common_step, List.lookup]

/-- Witness for C2 at a concrete 13-element batch. -/
theorem C2_loss_dict_keys_and_total_nonneg_witness :
    ((Baseline.common_step Baseline.sysT Baseline.storeT Baseline.batch13
      0 true).1.map Prod.fst =
      ["Total Loss", "Mel Loss", "Mel-Postnet Loss", "Pitch Loss",
       "Energy Loss", "Duration Loss"]) ∧
    ∃ q, List.lookup "Total Loss"
        (Baseline.common_step Baseline.sysT Baseline.storeT Baseline.batch13
          0 true).1 = some q ∧ 0 ≤ q :=
  C2_loss_dict_keys_and_total_nonneg Baseline.sysT Baseline.storeT
    Baseline.batch13 0 true (by decide)

/-- C3: on the same batch and the same model state, `training_step` and
`validation_step` carry identical loss dictionaries (both are the result
of the same `common_step` pipeline on the same inputs; the `train` flag
is not consulted). -/
theorem C3_train_val_loss_dicts_identical (s : Baseline.System)
    (st : Baseline.Store) (batch : Baseline.Batch) (i : Nat) :
    (Baseline.training_step s st batch i).losses =
      (Baseline.validation_step s st batch i).losses := rfl

/-- C4: with `use_matching` disabled, `build_model` creates neither the
matching module nor the shared embedding bank (the parameter store is
untouched); the text-side pipeline equals the matching-free path, so
`common_step` and `synth_step` are independent of the parameter store and
`inference` completes without error. -/
theorem C4_no_matching_path (mc : Baseline.ModelConfig)
    (dcs : List String) (st : Baseline.Store)
    (h : mc.use_matching = false) :
    (Baseline.build_model mc dcs st).1.text_matching = none ∧
    (Baseline.build_model mc dcs st).1.shared_emb_banks = none ∧
    (Baseline.build_model mc dcs st).2 = st ∧
    (∀ st2 ids sym lens,
      Baseline.encodePipeline (Baseline.build_model mc dcs st).1 st2 ids
          sym lens =
        Baseline.encodeNoMatch (Baseline.build_model mc dcs st).1 ids
          sym lens) ∧
    (∀ st2 st3 b i tr,
      Baseline.common_step (Baseline.build_model mc dcs st).1 st2 b i tr =
        Baseline.common_step (Baseline.build_model mc dcs st).1 st3 b i tr) ∧
    (∀ st2 st3 b i,
      Baseline.synth_step (Baseline.build_model mc dcs st).1 st2 b i =
        Baseline.synth_step (Baseline.build_model mc dcs st).1 st3 b i) ∧
    (∀ tbl st2 mel text symid, ∃ out,
      Baseline.inference tbl (Baseline.build_model mc dcs st).1 st2 mel
        text symid none = .ok out) := by
  have hb : Baseline.build_model mc dcs st =
      (⟨mc.use_matching, ⟨Baseline.build_id2symbols dcs, mc.encoder_hidden⟩,
        ⟨mc.text_encoder_cfg⟩, ⟨mc⟩, ⟨mc⟩, none, none⟩, st) := by
    simp [Baseline.build_model, h]
  refine ⟨by simp [hb], by simp [hb], by simp [hb], ?_, ?_, ?_, ?_⟩
  · intro st2 ids sym lens
    simp [hb, Baseline.encodePipeline, Baseline.encodeNoMatch, h]
  · intro st2 st3 b i tr
    simp [hb, Baseline.common_step, Baseline.encodePipeline, h]
  · intro st2 st3 b i
    simp [hb, Baseline.synth_step, Baseline.encodePipeline, h]
  · intro tbl st2 mel text symid
    exact ⟨_, rfl⟩

/-- Witness for C4 on a concrete matching-free configuration. -/
theorem C4_no_matching_path_witness :
    (Baseline.build_model Baseline.mcF ["en"] []).1.text_matching = none ∧
    (Baseline.build_model Baseline.mcF ["en"] []).2 = [] ∧
    ∃ out, Baseline.inference [("zh", 1)]
      (Baseline.build_model Baseline.mcF ["en"] []).1 [] [1] [2, 3] "en"
      none = .ok out := by
  obtain ⟨h1, h2, h3, h4, h5, h6, h7⟩ :=
    C4_no_matching_path Baseline.mcF ["en"] [] (by decide)
  exact ⟨h1, h3, h7 [("zh", 1)] [] [1] [2, 3] "en"⟩

/-- C5: whenever the optional language identifier resolves (absent, or
present in the table), `inference` succeeds with gradient tracking
disabled, the output's length tensor is `[len(text)]`, and the result
carries the ten prediction artifacts in the fixed documented order. -/
theorem C5_inference_no_grad_ten_artifacts (tbl : Baseline.LangTable)
    (s : Baseline.System) (st : Baseline.Store) (mel : List ℚ)
    (text : List Nat) (symbol_id : String) (lang_id : Option String)
    (h : lang_id = none ∨
      ∃ l n, lang_id = some l ∧ Baseline.langLookup tbl l = some n) :
    ∃ out, Baseline.inference tbl s st mel text symbol_id lang_id =
        .ok out ∧
      out.gradTracked = false ∧
      out.src_lens = ⟨[(text.length : ℚ)]⟩ ∧
      out.toTuple = (out.output, out.postnet_output, out.p_predictions,
        out.e_predictions, out.log_d_predictions, out.d_rounded,
        out.src_masks, out.mel_masks, out.src_lens, out.mel_lens) := by
  rcases h with rfl | ⟨l, n, rfl, hn⟩
  · exact ⟨_, rfl, rfl, rfl, rfl⟩
  · simp only [Baseline.inference, hn]
    exact ⟨_, rfl, rfl, rfl, rfl⟩

/-- Witness for C5 at a concrete system, token sequence and resolvable
language identifier. -/
theorem C5_inference_no_grad_ten_artifacts_witness :
    ∃ out, Baseline.inference [("en", 0)] Baseline.sysT Baseline.storeT
        [1] [2, 3] "en" (some "en") = .ok out ∧
      out.gradTracked = false ∧
      out.src_lens = ⟨[((([2, 3] : List Nat).length : ℚ))]⟩ ∧
      out.toTuple = (out.output, out.postnet_output, out.p_predictions,
        out.e_predictions, out.log_d_predictions, out.d_rounded,
        out.src_masks, out.mel_masks, out.src_lens, out.mel_lens) :=
  C5_inference_no_grad_ten_artifacts [("en", 0)] Baseline.sysT
    Baseline.storeT [1] [2, 3] "en" (some "en")
    (Or.inr ⟨"en", 0, rfl, by decide⟩)

/-- C6: `build_optimized_model` on a built system is exactly
`[text_encoder, model, embedding_model]`, extended with the matching
module exactly when `use_matching` is enabled, and never contains the
loss function. -/
theorem C6_optimized_modules (mc : Baseline.ModelConfig)
    (dcs : List String) (st : Baseline.Store) :
    (mc.use_matching = true → ∃ tm,
      (Baseline.build_model mc dcs st).1.text_matching = some tm ∧
      Baseline.build_optimized_model (Baseline.build_model mc dcs st).1 =
        [Baseline.Module.textEncoderM
           (Baseline.build_model mc dcs st).1.text_encoder,
         Baseline.Module.acousticM (Baseline.build_model mc dcs st).1.model,
         Baseline.Module.embeddingM
           (Baseline.build_model mc dcs st).1.embedding_model,
         Baseline.Module.matchingM tm]) ∧
    (mc.use_matching = false →
      Baseline.build_optimized_model (Baseline.build_model mc dcs st).1 =
        [Baseline.Module.textEncoderM
           (Baseline.build_model mc dcs st).1.text_encoder,
         Baseline.Module.acousticM (Baseline.build_model mc dcs st).1.model,
         Baseline.Module.embeddingM
           (Baseline.build_model mc dcs st).1.embedding_model]) ∧
    (∀ m ∈ Baseline.build_optimized_model (Baseline.build_model mc dcs st).1,
      m.isLoss = false) := by
  refine ⟨?_, ?_, ?_⟩
  · intro hm
    refine ⟨⟨mc.matching.codebook_size, mc.matching.dim,
      mc.matching.nhead, st.length⟩, ?_, ?_⟩ <;>
      simp [Baseline.build_model, Baseline.build_optimized_model,
        Baseline.SoftMultiAttCodebook.create, hm]
  · intro hm
    simp [Baseline.build_model, Baseline.build_optimized_model, hm]
  · intro m hmem
    cases hm : mc.use_matching <;>
      · simp [Baseline.build_model, Baseline.build_optimized_model,
          Baseline.SoftMultiAttCodebook.create, hm] at hmem
        rcases hmem with rfl | rfl | rfl | rfl <;> rfl

/-- Witness for C6 on concrete configurations with matching off and on. -/
theorem C6_optimized_modules_witness :
    Baseline.build_optimized_model Baseline.sysF =
      [Baseline.Module.textEncoderM Baseline.sysF.text_encoder,
       Baseline.Module.acousticM Baseline.sysF.model,
       Baseline.Module.embeddingM Baseline.sysF.embedding_model] ∧
    (Baseline.build_optimized_model Baseline.sysT).length = 4 := by
  refine ⟨(C6_optimized_modules Baseline.mcF ["en"] []).2.1 (by decide), ?_⟩
  obtain ⟨tm, _, he⟩ := (C6_optimized_modules Baseline.mcT ["en"] []).1
    (by decide)
  show (Baseline.build_optimized_model
    (Baseline.build_model Baseline.mcT ["en"] []).1).length = 4
  rw [he]
  rfl

/-- C7: `common_step` computes exactly the spec's data-flow order —
embedding of `batch[3]`, text encoding with lengths `batch[4]`, optional
codebook matching, the acoustic model on `batch[2]` with the encoded
texts and `batch[4:]`, and finally the loss on the predictions and
targets — packaged as the named dictionary plus the raw output. -/
theorem C7_data_flow_order (s : Baseline.System) (st : Baseline.Store)
    (batch : Baseline.Batch) (i : Nat) (tr : Bool)
    (h : batch.length = 13) :
    Baseline.common_step s st batch i tr =
      (Baseline.loss_flow s batch (Baseline.forward_flow s st batch),
       Baseline.forward_flow s st batch) := rfl

/-- Witness for C7 at a concrete 13-element batch. -/
theorem C7_data_flow_order_witness :
    Baseline.common_step Baseline.sysT Baseline.storeT Baseline.batch13
      0 true =
      (Baseline.loss_flow Baseline.sysT Baseline.batch13
        (Baseline.forward_flow Baseline.sysT Baseline.storeT
          Baseline.batch13),
       Baseline.forward_flow Baseline.sysT Baseline.storeT
         Baseline.batch13) :=
  C7_data_flow_order Baseline.sysT Baseline.storeT Baseline.batch13 0 true
    (by decide)

/-- C8: a supplied language identifier that is absent from the
language-name-to-ID table makes `inference` fail with the lookup error —
uniformly in the system, store and inputs, so before any forward
computation. -/
theorem C8_unknown_language_error (tbl : Baseline.LangTable)
    (s : Baseline.System) (st : Baseline.Store) (mel : List ℚ)
    (text : List Nat) (symbol_id : String) (l : String)
    (h : Baseline.langLookup tbl l = none) :
    Baseline.inference tbl s st mel text symbol_id (some l) =
      .error ("KeyError: " ++ l) := by
  simp [Baseline.inference, h]

/-- Witness for C8 at a concrete table missing the queried language. -/
theorem C8_unknown_language_error_witness :
    Baseline.inference [("en", 0)] Baseline.sysT Baseline.storeT [1] [2]
      "en" (some "zz") = .error ("KeyError: " ++ "zz") :=
  C8_unknown_language_error [("en", 0)] Baseline.sysT Baseline.storeT
    [1] [2] "en" "zz" (by decide)

/-- C9: with matching enabled, the parameter reference the matching
module holds as its codebook is the very reference `build_model` stored
as the shared embedding bank (aliased, not copied), so a store update
through either reference is read back through the other. -/
theorem C9_emb_bank_aliasing (mc : Baseline.ModelConfig)
    (dcs : List String) (st st' : Baseline.Store) (t : Baseline.Tensor)
    (h : mc.use_matching = true) :
    Baseline.module_bank_ref (Baseline.build_model mc dcs st).1 =
      (Baseline.build_model mc dcs st).1.shared_emb_banks ∧
    (Baseline.build_model mc dcs st).1.shared_emb_banks =
      some st.length ∧
    (st.length < st'.length →
      Baseline.storeRead (Baseline.storeWrite st'
          ((Baseline.module_bank_ref
            (Baseline.build_model mc dcs st).1).getD 0) t)
        (((Baseline.build_model mc dcs st).1.shared_emb_banks).getD 0) =
        t ∧
      Baseline.storeRead (Baseline.storeWrite st'
          (((Baseline.build_model mc dcs st).1.shared_emb_banks).getD 0)
          t)
        ((Baseline.module_bank_ref
          (Baseline.build_model mc dcs st).1).getD 0) = t) := by
  have h1 : Baseline.module_bank_ref (Baseline.build_model mc dcs st).1 =
      some st.length := by
    simp [Baseline.build_model, Baseline.module_bank_ref,
      Baseline.SoftMultiAttCodebook.create, h]
  have h2 : (Baseline.build_model mc dcs st).1.shared_emb_banks =
      some st.length := by
    simp [Baseline.build_model, h]
  refine ⟨h1.trans h2.symm, h2, fun hlt => ?_⟩
  rw [h1, h2]
  simp only [Option.getD_some]
  exact ⟨Baseline.storeWrite_read_self st' st.length t hlt,
    Baseline.storeWrite_read_self st' st.length t hlt⟩

/-- Witness for C9: on the concrete matching-enabled system, the module's
bank reference and the shared bank coincide, and a concrete write through
the module's reference is read back through the shared one. -/
theorem C9_emb_bank_aliasing_witness :
    Baseline.module_bank_ref Baseline.sysT =
      Baseline.sysT.shared_emb_banks ∧
    Baseline.storeRead (Baseline.storeWrite [Baseline.Tensor.mk [5]]
        ((Baseline.module_bank_ref Baseline.sysT).getD 0) ⟨[7]⟩)
      ((Baseline.sysT.shared_emb_banks).getD 0) = ⟨[7]⟩ := by
  have h := C9_emb_bank_aliasing Baseline.mcT ["en"] []
    [Baseline.Tensor.mk [5]] ⟨[7]⟩ (by decide)
  exact ⟨h.1, (h.2.2 (by decide)).1⟩

/-- C10: with no language identifier supplied, `inference` never consults
the language-name-to-ID table (its result is the same for every table)
and hands `lang_args = none` to the acoustic model, succeeding. -/
theorem C10_lang_none_no_lookup (tbl tbl' : Baseline.LangTable)
    (s : Baseline.System) (st : Baseline.Store) (mel : List ℚ)
    (text : List Nat) (symbol_id : String) :
    Baseline.inference tbl s st mel text symbol_id none =
      Baseline.inference tbl' s st mel text symbol_id none ∧
    ∃ out, Baseline.inference tbl s st mel text symbol_id none =
        .ok out ∧
      out = s.model.fwd false
        (Baseline.SpkArgs.reference ⟨mel⟩ [(0, mel.length)])
        (Baseline.encodePipeline s st ⟨text.map (fun k => (k : ℚ))⟩
          (some symbol_id) ⟨[(text.length : ℚ)]⟩)
        [⟨[(text.length : ℚ)]⟩, ⟨[List.foldr max 0 [(text.length : ℚ)]]⟩]
        none true :=
  ⟨rfl, _, rfl, rfl⟩
